import Mathlib

/-!
Verification of the Smart Task Priority Scoring Engine (tasks/scoring.py).

The Python module is shallowly embedded: Python values that can appear in a
raw task record are modelled by the inductive type `PyVal`, raw task records
by association lists `RawTask`, Python floats by `ℚ`, Python exceptions by
`Except PyErr`, and the ambient "today" of `date.today()` by an explicit
`PDate` parameter.  Functions keep the names of the Python functions they
embed.  The depth-first cycle search of `detect_circular_dependencies` is
given explicit fuel (`Option.none` = fuel exhausted) so that every
definition is total and executable.
-/

/-! ### Python-style primitive helpers -/

/-- Python `min(a, b)` on two floats: returns `b` only if `b < a`. -/
def pyMin (a b : ℚ) : ℚ := if b < a then b else a

/-- Python `max(a, b)` on two floats: returns `b` only if `b > a`. -/
def pyMax (a b : ℚ) : ℚ := if a < b then b else a

/-- Python `min(a, b)` on two ints. -/
def pyMinI (a b : Int) : Int := if b < a then b else a

/-- Truncation of a rational toward zero, as Python `int(float)`. -/
def qTrunc (q : ℚ) : Int := Int.tdiv q.num (q.den : Int)

/-- Nearest integer with ties to even, as Python `round`. -/
def roundHalfEven (q : ℚ) : Int :=
  let f : Int := ⌊q⌋
  let r : ℚ := q - (f : ℚ)
  if r < 1/2 then f
  else if 1/2 < r then f + 1
  else if f % 2 = 0 then f else f + 1

/-- Python `round(q, 2)`. -/
def round2 (q : ℚ) : ℚ := (roundHalfEven (q * 100) : ℚ) / 100

/-- Trim ASCII whitespace from both ends of a character list (Python `str.strip`). -/
def trimChars (l : List Char) : List Char :=
  ((l.dropWhile (·.isWhitespace)).reverse.dropWhile (·.isWhitespace)).reverse

/-- Python `str.strip()`. -/
def pyStrip (s : String) : String := String.mk (trimChars s.toList)

/-- Split a character list on a separator character. -/
def splitCharsAux (c : Char) : List Char → List Char → List (List Char)
  | [], acc => [acc.reverse]
  | x :: xs, acc =>
    if x = c then acc.reverse :: splitCharsAux c xs []
    else splitCharsAux c xs (x :: acc)

/-- Split a string on a single-character separator. -/
def pySplit (c : Char) (s : String) : List String :=
  (splitCharsAux c s.toList []).map String.mk

/-- Whether `pat` occurs as a contiguous sublist of `l` starting at some position. -/
def subChars (pat : List Char) : List Char → Bool
  | [] => pat.isEmpty
  | x :: xs => pat.isPrefixOf (x :: xs) || subChars pat xs

/-- Python `needle in hay` on strings (substring test). -/
def substrB (needle hay : String) : Bool :=
  subChars needle.toList hay.toList

/-- Python `sep.join(parts)`. -/
def joinSep (sep : String) : List String → String
  | [] => ""
  | [x] => x
  | x :: y :: xs => x ++ sep ++ joinSep sep (y :: xs)

/-- Value of a nonempty list of decimal digit characters. -/
def digitsVal : List Char → Option Nat
  | [] => Option.none
  | l =>
    l.foldl
      (fun acc c =>
        match acc with
        | Option.none => Option.none
        | some n => if c.isDigit then some (n * 10 + (c.toNat - 48)) else Option.none)
      (some 0)

/-- Python `int(str)`: optional surrounding whitespace, optional sign, decimal digits. -/
def parseIntChars (l : List Char) : Option Int :=
  match trimChars l with
  | '-' :: rest => (digitsVal rest).map (fun n => -(n : Int))
  | '+' :: rest => (digitsVal rest).map (fun n => (n : Int))
  | rest => (digitsVal rest).map (fun n => (n : Int))

/-! ### Calendar dates -/

/-- A calendar date as held by a Python `datetime.date`. -/
structure PDate where
  year : Int
  month : Int
  day : Int
deriving DecidableEq, Repr

/-- Gregorian leap-year test. -/
def isLeap (y : Int) : Bool := (y % 4 = 0 && y % 100 ≠ 0) || y % 400 = 0

/-- Days in a month of a given year. -/
def daysInMonth (y m : Int) : Int :=
  if m = 2 then (if isLeap y then 29 else 28)
  else if m = 4 || m = 6 || m = 9 || m = 11 then 30
  else 31

/-- Days in the months strictly before month `m` of year `y`. -/
def daysBeforeMonth (y m : Int) : Int :=
  let base :=
    if m = 1 then 0 else if m = 2 then 31 else if m = 3 then 59
    else if m = 4 then 90 else if m = 5 then 120 else if m = 6 then 151
    else if m = 7 then 181 else if m = 8 then 212 else if m = 9 then 243
    else if m = 10 then 273 else if m = 11 then 304 else 334
  if 2 < m && isLeap y then base + 1 else base

/-- Proleptic Gregorian ordinal of a date (Python `date.toordinal`);
date subtraction `(d1 - d2).days` is the difference of ordinals. -/
def toOrdinal (dt : PDate) : Int :=
  let y := dt.year - 1
  365 * y + y.fdiv 4 - y.fdiv 100 + y.fdiv 400 + daysBeforeMonth dt.year dt.month + dt.day

/-- Left-pad a string with zeros to the given length. -/
def padZeros (width : Nat) (s : String) : String :=
  String.mk (List.replicate (width - s.toList.length) '0') ++ s

/-- Python `date.isoformat()`: `YYYY-MM-DD`. -/
def isoformat (dt : PDate) : String :=
  padZeros 4 (toString dt.year) ++ "-" ++ padZeros 2 (toString dt.month) ++ "-" ++
    padZeros 2 (toString dt.day)

/-! ### Python values, task records and exceptions -/

/-- A Python value as it may occur in a raw task record. -/
inductive PyVal where
  | none
  | bool (b : Bool)
  | int (n : Int)
  | float (q : ℚ)
  | str (s : String)
  | list (l : List PyVal)
  | pydate (dt : PDate)
  | pydatetime (dt : PDate)

/-- The Python exceptions the scoring module can raise. -/
inductive PyErr where
  | attributeError
  | typeError
  | valueError
  | keyError
deriving DecidableEq, Repr

/-- A raw task record: a Python dict with string keys. -/
def RawTask := List (String × PyVal)

/-- Numeric value of a Python number (`bool` counts as `0`/`1`). -/
def pyNum : PyVal → Option ℚ
  | .bool b => some (if b then 1 else 0)
  | .int n => some (n : ℚ)
  | .float q => some q
  | _ => Option.none

mutual

/-- Python `==` on the modelled values: numbers compare by value across
`bool`/`int`/`float`, everything else structurally. -/
def pyEq : PyVal → PyVal → Bool
  | .list a, .list b => pyEqList a b
  | a, b =>
    match pyNum a, pyNum b with
    | some x, some y => x == y
    | _, _ =>
      match a, b with
      | .none, .none => true
      | .str s, .str t => s == t
      | .pydate d, .pydate e => d == e
      | .pydatetime d, .pydatetime e => d == e
      | _, _ => false

/-- Pointwise Python `==` on lists. -/
def pyEqList : List PyVal → List PyVal → Bool
  | [], [] => true
  | a :: as, b :: bs => pyEq a b && pyEqList as bs
  | _, _ => false

end

/-- Python `x in l` for a list `l`. -/
def pyMemL (x : PyVal) (l : List PyVal) : Bool := l.any (fun y => pyEq y x)

/-- Python `d.get(k, default)` on a task record. -/
def dictGet (t : RawTask) (k : String) (dflt : PyVal) : PyVal :=
  match List.find? (fun kv => kv.1 == k) t with
  | some kv => kv.2
  | Option.none => dflt

/-- Python `k in d` / conditional lookup on a task record. -/
def dictFind (t : RawTask) (k : String) : Option PyVal :=
  (List.find? (fun kv => kv.1 == k) t).map (·.2)

/-- Python truthiness of a value. -/
def pyTruthy : PyVal → Bool
  | .none => false
  | .bool b => b
  | .int n => n ≠ 0
  | .float q => q ≠ 0
  | .str s => s ≠ ""
  | .list l => !l.isEmpty
  | .pydate _ => true
  | .pydatetime _ => true

/-- Python `int(x)`: `TypeError` for non-numeric non-string values,
`ValueError` for unparsable strings, truncation for floats. -/
def pyIntCoe : PyVal → Except PyErr Int
  | .int n => .ok n
  | .bool b => .ok (if b then 1 else 0)
  | .float q => .ok (qTrunc q)
  | .str s =>
    match parseIntChars s.toList with
    | some n => .ok n
    | Option.none => .error .valueError
  | _ => .error .typeError

/-- Python `str.strip()` as a method lookup: `AttributeError` unless the
value is a string. -/
def pyStripAttr : PyVal → Except PyErr String
  | .str s => .ok (pyStrip s)
  | _ => .error .attributeError

/-- Python `repr` of a scalar value (nested lists rendered opaquely). -/
def pyReprScalar : PyVal → String
  | .none => "None"
  | .bool b => if b then "True" else "False"
  | .int n => toString n
  | .float q => if q.den = 1 then toString q.num ++ ".0" else toString q.num ++ "/" ++ toString q.den
  | .str s => "'" ++ s ++ "'"
  | .list _ => "[...]"
  | .pydate dt => "datetime.date(" ++ toString dt.year ++ ", " ++ toString dt.month ++ ", " ++ toString dt.day ++ ")"
  | .pydatetime dt => "datetime.datetime(" ++ toString dt.year ++ ", " ++ toString dt.month ++ ", " ++ toString dt.day ++ ", 0, 0)"

/-- Python `repr` of a value (used inside `str` of a list). -/
def pyRepr : PyVal → String
  | .list l => "[" ++ joinSep ", " (l.map pyReprScalar) ++ "]"
  | v => pyReprScalar v

/-- Python `str(x)` (as used by f-string interpolation). -/
def pyStr : PyVal → String
  | .str s => s
  | v => pyRepr v

/-! ### `parse_date` -/

/-- One `strptime` numeric field: 1–2 digit month in `[1, 12]`. -/
def parseMonthField (s : String) : Option Int :=
  let l := s.toList
  if l.length = 0 || 2 < l.length then Option.none
  else match digitsVal l with
    | some n => if 1 ≤ n && n ≤ 12 then some (n : Int) else Option.none
    | Option.none => Option.none

/-- One `strptime` numeric field: 1–2 digit day in `[1, 31]`. -/
def parseDayField (s : String) : Option Int :=
  let l := s.toList
  if l.length = 0 || 2 < l.length then Option.none
  else match digitsVal l with
    | some n => if 1 ≤ n && n ≤ 31 then some (n : Int) else Option.none
    | Option.none => Option.none

/-- One `strptime` numeric field: exactly 4 digit year. -/
def parseYearField (s : String) : Option Int :=
  let l := s.toList
  if l.length ≠ 4 then Option.none
  else (digitsVal l).map (fun n => (n : Int))

/-- Positions of the year, month and day fields in a date format. -/
inductive FieldOrder where
  | ymd
  | mdy
  | dmy
deriving DecidableEq, Repr

/-- Attempt one `strptime` format given by separator and field order,
including `datetime.date` range validation. -/
def tryFormat (sep : Char) (ord : FieldOrder) (s : String) : Option PDate :=
  match pySplit sep s with
  | [a, b, c] =>
    let fields :=
      match ord with
      | .ymd => (parseYearField a, parseMonthField b, parseDayField c)
      | .mdy => (parseYearField c, parseMonthField a, parseDayField b)
      | .dmy => (parseYearField c, parseMonthField b, parseDayField a)
    match fields with
    | (some y, some m, some d) =>
      if 1 ≤ y && d ≤ daysInMonth y m then some ⟨y, m, d⟩ else Option.none
    | _ => Option.none
  | _ => Option.none

/-- The ordered format list of `parse_date`:
`%Y-%m-%d`, `%m/%d/%Y`, `%d-%m-%Y`, `%Y/%m/%d`, `%d/%m/%Y`. -/
def dateFormats : List (Char × FieldOrder) :=
  [('-', .ymd), ('/', .mdy), ('-', .dmy), ('/', .ymd), ('/', .dmy)]

/-- Try formats in order, first success wins. -/
def tryFormats (s : String) : List (Char × FieldOrder) → Option PDate
  | [] => Option.none
  | (sep, ord) :: rest =>
    match tryFormat sep ord s with
    | some dt => some dt
    | Option.none => tryFormats s rest

/-- Embedding of `parse_date` (scoring.py lines 73–122). -/
def parse_date : PyVal → Option PDate
  | .none => Option.none
  | .pydate dt => some dt
  | .pydatetime dt => some dt
  | .str s => tryFormats (pyStrip s) dateFormats
  | _ => Option.none

/-! ### `validate_task_data` -/

/-- The normalized task produced by `validate_task_data`. -/
structure NormTask where
  title : String
  due_date : Option PDate
  importance : Int
  estimated_hours : Int
  dependencies : List PyVal
  id : Option PyVal

/-- Embedding of `validate_task_data` (scoring.py lines 125–195).  The only
uncaught exception path is `task.get('title', '').strip()` on a non-string
title, which raises `AttributeError`. -/
def validate_task_data (task : RawTask) : Except PyErr (NormTask × List String) := do
  -- Title
  let title0 ← pyStripAttr (dictGet task "title" (.str ""))
  let (title, w1) :=
    if title0 = "" then ("Untitled Task", ["Missing title - defaulted to \x22Untitled Task\x22"])
    else (title0, [])
  -- Due date
  let rawDate := dictGet task "due_date" .none
  let dueDate := parse_date rawDate
  let w2 :=
    if pyTruthy rawDate && dueDate.isNone then ["Invalid date format: " ++ pyStr rawDate]
    else []
  -- Importance (1-10)
  let (importance, w3) :=
    match pyIntCoe (dictGet task "importance" (.int 5)) with
    | .ok i =>
      if i < 1 then (1, ["Importance below 1 - clamped to 1"])
      else if 10 < i then (10, ["Importance above 10 - clamped to 10"])
      else (i, [])
    | .error _ => (5, ["Invalid importance value - defaulted to 5"])
  -- Estimated hours
  let (hours, w4) :=
    match pyIntCoe (dictGet task "estimated_hours" (.int 2)) with
    | .ok h =>
      if h ≤ 0 then ((if h ≠ 0 then |h| else 2), ["Invalid hours - converted to positive"])
      else (h, [])
    | .error _ => (2, ["Invalid estimated_hours - defaulted to 2"])
  -- Dependencies
  let (deps, w5) :=
    match dictGet task "dependencies" (.list []) with
    | .list l => (l, [])
    | _ => ([], ["Invalid dependencies format - defaulted to empty list"])
  -- Preserve original ID if present
  let idv := dictFind task "id"
  .ok (⟨title, dueDate, importance, hours, deps, idv⟩, w1 ++ w2 ++ w3 ++ w4 ++ w5)

example : validate_task_data [("title", .str "  X ")] =
    .ok (⟨"X", Option.none, 5, 2, [], Option.none⟩, []) := rfl

example : validate_task_data [("title", .int 5)] = .error .attributeError := rfl

example : validate_task_data [] =
    .ok (⟨"Untitled Task", Option.none, 5, 2, [], Option.none⟩,
      ["Missing title - defaulted to \x22Untitled Task\x22"]) := rfl

example : parse_date (.str "2025-12-25") = some ⟨2025, 12, 25⟩ := rfl

example : parse_date (.str "01/02/2025") = some ⟨2025, 1, 2⟩ := rfl

example : parse_date (.str "25-12-2025") = some ⟨2025, 12, 25⟩ := rfl

example : parse_date (.str "2025-02-30") = Option.none := rfl

example : parse_date (.str "garbage") = Option.none := rfl

/-! ### Factor scorers -/

/-- Embedding of `calculate_urgency_score` (scoring.py lines 202–256); the
ambient `date.today()` is the explicit parameter `today`. -/
def calculate_urgency_score (due_date : Option PDate) (today : PDate) : ℚ × String :=
  match due_date with
  | Option.none => (30, "No deadline set - medium urgency assumed")
  | some due =>
    let daysUntil : Int := toOrdinal due - toOrdinal today
    if daysUntil < 0 then
      let daysOverdue := |daysUntil|
      let score := pyMin 100 (100 + (daysOverdue : ℚ) * 0.5)
      (score, "WARNING: OVERDUE by " ++ toString daysOverdue ++ " day(s)!")
    else if daysUntil = 0 then (95, "Due TODAY - urgent!")
    else if daysUntil = 1 then (85, "Due tomorrow - very urgent")
    else if daysUntil ≤ 3 then
      (80 - ((daysUntil : ℚ) - 1) * 5, "Due in " ++ toString daysUntil ++ " days - urgent")
    else if daysUntil ≤ 7 then
      (65 - ((daysUntil : ℚ) - 3) * 6, "Due in " ++ toString daysUntil ++ " days - approaching")
    else if daysUntil ≤ 14 then
      (35 - ((daysUntil : ℚ) - 7) * 2, "Due in " ++ toString daysUntil ++ " days")
    else if daysUntil ≤ 30 then
      let score := 20 - ((daysUntil : ℚ) - 14) * 0.5
      (pyMax 10 score, "Due in " ++ toString daysUntil ++ " days - not urgent")
    else (5, "Due in " ++ toString daysUntil ++ " days - low urgency")

/-- Embedding of `calculate_importance_score` (scoring.py lines 259–292). -/
def calculate_importance_score (importance : Int) : ℚ × String :=
  let base : Int := importance * 10
  let base :=
    if 8 ≤ importance then pyMinI 100 (base + (importance - 7) ^ 2 * 3)
    else base
  let desc :=
    if 9 ≤ importance then "Critical priority"
    else if 7 ≤ importance then "High priority"
    else if 5 ≤ importance then "Medium priority"
    else if 3 ≤ importance then "Low priority"
    else "Minimal priority"
  ((base : ℚ), desc)

/-- Embedding of `calculate_effort_score` (scoring.py lines 295–332). -/
def calculate_effort_score (estimated_hours : Int) : ℚ × String :=
  let hs := toString estimated_hours
  if estimated_hours < 1 then (100, "Super quick task!")
  else if estimated_hours ≤ 2 then
    (85 - ((estimated_hours : ℚ) - 1) * 10, "Quick win (" ++ hs ++ "h)")
  else if estimated_hours ≤ 4 then
    (75 - ((estimated_hours : ℚ) - 2) * 10, "Moderate effort (" ++ hs ++ "h)")
  else if estimated_hours ≤ 8 then
    (55 - ((estimated_hours : ℚ) - 4) * 5, "Significant effort (" ++ hs ++ "h)")
  else
    (pyMax 10 (28 - ((estimated_hours : ℚ) - 8) * 2), "Major effort (" ++ hs ++ "h)")

/-- Python `task_id in task_deps` inside the blocker loop: membership for a
list, substring for a string, `TypeError` otherwise. -/
def pyInVal (x : PyVal) : PyVal → Except PyErr Bool
  | .list l => .ok (pyMemL x l)
  | .str s =>
    match x with
    | .str t => .ok (substrB t s)
    | _ => .error .typeError
  | _ => .error .typeError

/-- Python `x is None` on a modelled value. -/
def isNoneB : PyVal → Bool
  | .none => true
  | _ => false

/-- The blocker count loop of `calculate_dependency_score`: how many tasks
of the batch list `task_id` among their dependencies. -/
def countBlocked (task_id : PyVal) : List RawTask → Except PyErr Nat
  | [] => .ok 0
  | t :: rest => do
    let b ← pyInVal task_id (dictGet t "dependencies" (.list []))
    let n ← countBlocked task_id rest
    .ok ((if b then 1 else 0) + n)

/-- The first stanza of `calculate_dependency_score` (scoring.py lines
363–374): the base score 70 with the blocked penalty or the all-met bonus,
plus its explanation list. -/
def depSelfPair (dependencies completed_ids : List PyVal) : ℚ × List String :=
  if dependencies.isEmpty then (70, [])
  else
    let unmet := dependencies.filter (fun d => !pyMemL d completed_ids)
    if unmet.isEmpty then (70 + 10, ["All dependencies complete"])
    else
      (70 - pyMin 50 ((unmet.length : ℚ) * 20),
        ["Blocked by " ++ toString unmet.length ++ " task(s)"])

/-- Embedding of `calculate_dependency_score` (scoring.py lines 335–392). -/
def calculate_dependency_score (task_id : PyVal) (dependencies : List PyVal)
    (all_tasks : List RawTask) (completed_ids : List PyVal) :
    Except PyErr (ℚ × String) := do
  -- Check if this task is blocked
  let (score1, exps1) : ℚ × List String := depSelfPair dependencies completed_ids
  -- Check if this task blocks others
  let (score2, exps2) ←
    if isNoneB task_id then pure (score1, exps1)
    else do
      let blockedCount ← countBlocked task_id all_tasks
      if 0 < blockedCount then
        pure (score1 + pyMin 30 ((blockedCount : ℚ) * 15),
          exps1 ++ ["Blocks " ++ toString blockedCount ++ " other task(s)"])
      else pure (score1, exps1)
  let score := pyMax 0 (pyMin 100 score2)
  let explanation := if exps2.isEmpty then "No dependencies" else joinSep "; " exps2
  .ok (score, explanation)

/-! ### Strategy table -/

/-- One entry of `STRATEGY_WEIGHTS`. -/
structure StrategyProfile where
  urgency : ℚ
  importance : ℚ
  effort : ℚ
  dependency : ℚ
  description : String
deriving DecidableEq, Repr

/-- Embedding of the `STRATEGY_WEIGHTS` table (scoring.py lines 30–66),
in source order. -/
def STRATEGY_WEIGHTS : List (String × StrategyProfile) :=
  [("balanced", ⟨0.35, 0.30, 0.20, 0.15, "Balanced consideration of all factors"⟩),
   ("smart_balance", ⟨0.35, 0.30, 0.20, 0.15, "Balanced consideration of all factors"⟩),
   ("deadline_driven", ⟨0.55, 0.25, 0.10, 0.10, "Prioritize tasks with approaching deadlines"⟩),
   ("high_impact", ⟨0.20, 0.50, 0.15, 0.15, "Focus on high-importance tasks first"⟩),
   ("fastest_wins", ⟨0.20, 0.20, 0.45, 0.15, "Prioritize quick tasks to build momentum"⟩)]

/-- Python `STRATEGY_WEIGHTS.get(name)`. -/
def lookupStrategy (name : String) : Option StrategyProfile :=
  (List.find? (fun kv => kv.1 == name) STRATEGY_WEIGHTS).map (·.2)

/-- The `smart_balance` profile, the fallback of `calculate_task_score`. -/
def smartBalanceProfile : StrategyProfile :=
  ⟨0.35, 0.30, 0.20, 0.15, "Balanced consideration of all factors"⟩

example : lookupStrategy "smart_balance" = some smartBalanceProfile := rfl

example : calculate_urgency_score (some ⟨2025, 10, 12⟩) ⟨2025, 10, 12⟩ =
    (95, "Due TODAY - urgent!") := rfl

example : (calculate_urgency_score (some ⟨2025, 10, 5⟩) ⟨2025, 10, 12⟩).2 =
    "WARNING: OVERDUE by 7 day(s)!" := rfl

example : calculate_importance_score 9 = (100, "Critical priority") := by
  with_unfolding_all exact Eq.refl _

example : calculate_effort_score 1 = (85, "Quick win (1h)") := by
  with_unfolding_all exact Eq.refl _

/-! ### `detect_circular_dependencies` -/

/-- One cycle warning record produced by `detect_circular_dependencies`. -/
structure CycleWarning where
  wtype : String
  message : String
  tasks : List PyVal

/-- Python `path.index(x)`: index of the first element equal to `x`. -/
def pyIndex (path : List PyVal) (x : PyVal) : Option Nat :=
  List.findIdx? (fun y => pyEq y x) path

/-- Upsert into the `task_map` dict: a later duplicate id overwrites the
stored task but keeps the original key and position, as a Python dict does. -/
def upsertTaskMap (m : List (PyVal × RawTask)) (k : PyVal) (v : RawTask) :
    List (PyVal × RawTask) :=
  match m with
  | [] => [(k, v)]
  | (k0, v0) :: rest =>
    if pyEq k0 k then (k0, v) :: rest else (k0, v0) :: upsertTaskMap rest k v

/-- The dict comprehension `{t.get('id'): t for t in tasks if t.get('id') is not None}`. -/
def buildTaskMap (tasks : List RawTask) : List (PyVal × RawTask) :=
  tasks.foldl
    (fun m t =>
      match dictGet t "id" .none with
      | .none => m
      | tid => upsertTaskMap m tid t)
    []

/-- Lookup in the task map (`task_map.get(task_id)`). -/
def taskMapGet (m : List (PyVal × RawTask)) (k : PyVal) : Option RawTask :=
  (List.find? (fun kv => pyEq kv.1 k) m).map (·.2)

/-- Python `for x in v`: the element sequence of an iterable value
(`TypeError` when not iterable; a string iterates its characters). -/
def pyIterate : PyVal → Except PyErr (List PyVal)
  | .list l => .ok l
  | .str s => .ok (s.toList.map (fun c => .str (String.mk [c])))
  | _ => .error .typeError

/-- The mutable `visited` and `rec_stack` sets of the DFS. -/
structure DfsSt where
  visited : List PyVal
  recStack : List PyVal

/-- Python `set.remove` on the recursion stack. -/
def removeOnce (l : List PyVal) (x : PyVal) : List PyVal :=
  match l with
  | [] => []
  | y :: ys => if pyEq y x then ys else y :: removeOnce ys x

/-- Argument of one step of the `has_cycle` recursion: entering a node, or
iterating the remaining dependencies of a node. -/
inductive DfsIn where
  | node (tid : PyVal) (path : List PyVal)
  | deps (ds : List PyVal) (tid : PyVal) (path : List PyVal)

/-- The recursive `has_cycle` of `detect_circular_dependencies` (scoring.py
lines 418–437), with fuel; the result carries the found cycle (if any) and
the updated `visited`/`rec_stack` state.  When a cycle is being returned the
Python code skips `rec_stack.remove(task_id)` on the whole unwinding path,
which this embedding reproduces; `path.index(task_id)` on a path not
containing `task_id` raises `ValueError`. -/
def hasCycleStep (tm : List (PyVal × RawTask)) :
    Nat → DfsIn → DfsSt → Option (Except PyErr (Option (List PyVal) × DfsSt))
  | 0, _, _ => Option.none
  | _ + 1, .deps [] _ _, st => some (.ok (Option.none, st))
  | fuel + 1, .deps (d :: ds) tid path, st =>
    match hasCycleStep tm fuel (.node d (path ++ [tid])) st with
    | Option.none => Option.none
    | some (.error e) => some (.error e)
    | some (.ok (some cyc, st1)) => some (.ok (some cyc, st1))
    | some (.ok (Option.none, st1)) => hasCycleStep tm fuel (.deps ds tid path) st1
  | fuel + 1, .node tid path, st =>
    if pyMemL tid st.recStack then
      match pyIndex path tid with
      | Option.none => some (.error .valueError)
      | some i => some (.ok (some (path.drop i ++ [tid]), st))
    else if pyMemL tid st.visited then some (.ok (Option.none, st))
    else
      let st1 : DfsSt := ⟨tid :: st.visited, tid :: st.recStack⟩
      match taskMapGet tm tid with
      | Option.none => some (.ok (Option.none, ⟨st1.visited, removeOnce st1.recStack tid⟩))
      | some task =>
        match pyIterate (dictGet task "dependencies" (.list [])) with
        | .error e => some (.error e)
        | .ok ds =>
          match hasCycleStep tm fuel (.deps ds tid path) st1 with
          | Option.none => Option.none
          | some (.error e) => some (.error e)
          | some (.ok (some cyc, st2)) => some (.ok (some cyc, st2))
          | some (.ok (Option.none, st2)) =>
            some (.ok (Option.none, ⟨st2.visited, removeOnce st2.recStack tid⟩))

/-- The warning record appended for a found cycle. -/
def mkCycleWarning (cyc : List PyVal) : CycleWarning :=
  ⟨"circular_dependency",
    "Circular dependency detected: " ++ joinSep " → " (cyc.map pyStr), cyc⟩

/-- The top-level loop of `detect_circular_dependencies` over the task-map
keys (scoring.py lines 439–447). -/
def detectLoop (tm : List (PyVal × RawTask)) (fuel : Nat) :
    List PyVal → DfsSt → List CycleWarning → Option (Except PyErr (List CycleWarning))
  | [], _, ws => some (.ok ws)
  | tid :: rest, st, ws =>
    if pyMemL tid st.visited then detectLoop tm fuel rest st ws
    else
      match hasCycleStep tm fuel (.node tid []) st with
      | Option.none => Option.none
      | some (.error e) => some (.error e)
      | some (.ok (cycOpt, st1)) =>
        let ws1 :=
          match cycOpt with
          | some cyc => ws ++ [mkCycleWarning cyc]
          | Option.none => ws
        detectLoop tm fuel rest st1 ws1

/-- Embedding of `detect_circular_dependencies` (scoring.py lines 399–449),
with fuel for the depth-first search. -/
def detect_circular_dependencies (fuel : Nat) (tasks : List RawTask) :
    Option (Except PyErr (List CycleWarning)) :=
  let tm := buildTaskMap tasks
  detectLoop tm fuel (tm.map (·.1)) ⟨[], []⟩ []

/-! ### `calculate_task_score` -/

/-- The four rounded component scores of a scored task. -/
structure ScoreBreakdown where
  urgency : ℚ
  importance : ℚ
  effort : ℚ
  dependency : ℚ
deriving DecidableEq, Repr

/-- The four explanation strings of a scored task. -/
structure Explanations where
  urgency : String
  importance : String
  effort : String
  dependency : String
deriving DecidableEq, Repr

/-- The result dict of `calculate_task_score`; `warnings = []` models an
absent `warnings` key and `rank = Option.none` the not-yet-assigned rank. -/
structure ScoredTask where
  title : String
  due_date : Option String
  importance : Int
  estimated_hours : Int
  dependencies : List PyVal
  id : Option PyVal
  score : ℚ
  priority_level : String
  score_breakdown : ScoreBreakdown
  explanations : Explanations
  strategy_used : String
  warnings : List String
  rank : Option Nat

/-- Embedding of `calculate_task_score` (scoring.py lines 456–548); `today`
is the ambient current date. -/
def calculate_task_score (today : PDate) (task : RawTask) (all_tasks : List RawTask)
    (strategy : String) (completed_ids : List PyVal) : Except PyErr ScoredTask := do
  let (normalized, dataWarnings) ← validate_task_data task
  -- Get strategy weights
  let weights :=
    match lookupStrategy strategy with
    | some w => w
    | Option.none => smartBalanceProfile
  -- Calculate component scores
  let (urgencyScore, urgencyExp) := calculate_urgency_score normalized.due_date today
  let (importanceScore, importanceExp) := calculate_importance_score normalized.importance
  let (effortScore, effortExp) := calculate_effort_score normalized.estimated_hours
  let (dependencyScore, dependencyExp) ←
    calculate_dependency_score (normalized.id.getD .none) normalized.dependencies
      all_tasks completed_ids
  -- Calculate weighted final score
  let finalScore :=
    urgencyScore * weights.urgency + importanceScore * weights.importance +
      effortScore * weights.effort + dependencyScore * weights.dependency
  -- Determine priority level
  let priorityLevel :=
    if 75 ≤ finalScore then "CRITICAL"
    else if 60 ≤ finalScore then "HIGH"
    else if 40 ≤ finalScore then "MEDIUM"
    else if 25 ≤ finalScore then "LOW"
    else "MINIMAL"
  .ok
    { title := normalized.title
      due_date := normalized.due_date.map isoformat
      importance := normalized.importance
      estimated_hours := normalized.estimated_hours
      dependencies := normalized.dependencies
      id := normalized.id
      score := round2 finalScore
      priority_level := priorityLevel
      score_breakdown :=
        ⟨round2 urgencyScore, round2 importanceScore, round2 effortScore,
          round2 dependencyScore⟩
      explanations := ⟨urgencyExp, importanceExp, effortExp, dependencyExp⟩
      strategy_used := strategy
      warnings := dataWarnings
      rank := Option.none }

/-! ### `analyze_tasks` -/

/-- The summary dict of a batch result: the explicit empty-batch shape, or
the full shape built at scoring.py lines 624–633. -/
inductive Summary where
  | empty (total : Nat) (message : String)
  | full (total : Nat) (by_priority : List (String × Nat)) (critical_count : Nat)
      (high_count : Nat) (overdue_count : Nat) (warnings : List CycleWarning)
      (strategy : String) (strategy_description : String)

/-- The dict returned by `analyze_tasks`. -/
structure BatchResult where
  tasks : List ScoredTask
  summary : Summary
  warnings : List CycleWarning

/-- Scoring loop of `analyze_tasks`: score every task against the full batch. -/
def scoreAll (today : PDate) (allTasks : List RawTask) (strategy : String)
    (completed_ids : List PyVal) : List RawTask → Except PyErr (List ScoredTask)
  | [] => .ok []
  | t :: rest => do
    let s ← calculate_task_score today t allTasks strategy completed_ids
    let others ← scoreAll today allTasks strategy completed_ids rest
    .ok (s :: others)

/-- The stable descending sort `scored_tasks.sort(key=..., reverse=True)`:
`a` stays before `b` unless `b.score > a.score`. -/
def sortByScoreDesc (l : List ScoredTask) : List ScoredTask :=
  List.mergeSort l (fun a b => decide (b.score ≤ a.score))

/-- Rank assignment `for i, task in enumerate(scored_tasks, 1)`. -/
def assignRanks (l : List ScoredTask) : List ScoredTask :=
  l.enum.map (fun p => { p.2 with rank := some (p.1 + 1) })

/-- The `by_priority` tally dict of `analyze_tasks`. -/
def bumpPriority (m : List (String × Nat)) (level : String) : List (String × Nat) :=
  match m with
  | [] => [(level, 1)]
  | (k, n) :: rest =>
    if k == level then (k, n + 1) :: rest else (k, n) :: bumpPriority rest level

/-- Lookup with default 0 in the `by_priority` dict. -/
def priorityCount (m : List (String × Nat)) (level : String) : Nat :=
  match List.find? (fun kv => kv.1 == level) m with
  | some kv => kv.2
  | Option.none => 0

/-- Embedding of `analyze_tasks` (scoring.py lines 555–639).  The dead first
`summary` dict at lines 611–618 subscripts `STRATEGY_WEIGHTS[strategy]`,
raising `KeyError` for an unknown strategy even though its value is then
overwritten by the safe second `summary`; the embedding keeps exactly that
lookup. -/
def analyze_tasks (fuel : Nat) (today : PDate) (tasks : List RawTask)
    (strategy : String) (completed_ids : List PyVal) :
    Option (Except PyErr BatchResult) :=
  if tasks.isEmpty then
    some (.ok ⟨[], .empty 0 "No tasks to analyze", []⟩)
  else
    match detect_circular_dependencies fuel tasks with
    | Option.none => Option.none
    | some (.error e) => some (.error e)
    | some (.ok depWarnings) =>
      match scoreAll today tasks strategy completed_ids tasks with
      | .error e => some (.error e)
      | .ok scored =>
        let sorted := sortByScoreDesc scored
        let ranked := assignRanks sorted
        let overdue :=
          (ranked.filter (fun t => substrB "OVERDUE" t.explanations.urgency)).length
        -- the first summary dict: raises KeyError on an unknown strategy
        match lookupStrategy strategy with
        | Option.none => some (.error .keyError)
        | some _ =>
          let byPriority := ranked.foldl (fun m t => bumpPriority m t.priority_level) []
          let desc :=
            (match lookupStrategy strategy with
             | some w => w
             | Option.none =>
               match lookupStrategy "balanced" with
               | some w => w
               | Option.none => smartBalanceProfile).description
          some (.ok
            ⟨ranked,
              .full ranked.length byPriority (priorityCount byPriority "CRITICAL")
                (priorityCount byPriority "HIGH") overdue depWarnings strategy desc,
              depWarnings⟩)

/-! ### Shared demonstration inputs -/

/-- A fixed current date used by concrete evaluations. -/
def todayD : PDate := ⟨2025, 10, 12⟩

/-- A minimal well-formed raw task. -/
def plainTask : RawTask := [("title", .str "A")]

/-- Task 1 of the cycle batch: depends on task 2. -/
def cycTask1 : RawTask :=
  [("id", .int 1), ("title", .str "A"), ("dependencies", .list [.int 2])]

/-- Task 2 of the cycle batch: depends on task 1, closing the cycle. -/
def cycTask2 : RawTask :=
  [("id", .int 2), ("title", .str "B"), ("dependencies", .list [.int 1])]

/-- Task 3 of the cycle batch: depends on node 1 of the already-found cycle. -/
def cycTask3 : RawTask :=
  [("id", .int 3), ("title", .str "C"), ("dependencies", .list [.int 1])]

/-- The concrete scenario task of the spec: due today, importance 9, one hour. -/
def scenarioTask : RawTask :=
  [("title", .str "X"), ("due_date", .pydate todayD), ("importance", .int 9),
   ("estimated_hours", .int 1), ("dependencies", .list [])]

/-- A task whose dependency list contains its own id. -/
def selfDepTask : RawTask :=
  [("id", .int 1), ("dependencies", .list [.int 1]), ("title", .str "A")]

/-! ### Claims -/

/-- Claim C1. The spec claims that for a non-empty batch and an unknown
strategy name the engine falls back to `smart_balance` and `analyze_tasks`
returns a well-formed `BatchResult` with no exception.  The code disagrees:
`calculate_task_score` does fall back (second conjunct: the unknown-strategy
scores equal the `smart_balance` scores), but `analyze_tasks` raises
`KeyError` at the dead first summary dict, which subscripts
`STRATEGY_WEIGHTS[strategy]` (scoring.py line 617). -/
theorem claim_C1_code_bug :
    analyze_tasks 20 todayD [plainTask] "not_a_strategy" [] = some (.error .keyError) ∧
    (calculate_task_score todayD plainTask [plainTask] "not_a_strategy" []).map
        (fun r => (r.score, r.score_breakdown, r.priority_level)) =
      (calculate_task_score todayD plainTask [plainTask] "smart_balance" []).map
        (fun r => (r.score, r.score_breakdown, r.priority_level)) :=
  ⟨by with_unfolding_all exact Eq.refl _, by with_unfolding_all exact Eq.refl _⟩

/-- Claim C2. The spec claims `validate_task_data` never raises on any raw
task mapping, including a non-string title.  The code disagrees: on
`{'title': 5}` the expression `task.get('title', '').strip()` (scoring.py
line 147) raises `AttributeError`, because an `int` has no `strip` method. -/
theorem claim_C2_code_bug :
    validate_task_data [("title", PyVal.int 5)] = .error .attributeError := rfl

/-- Claim C3. The spec claims `detect_circular_dependencies` always returns
its warning list, including on batches with a cycle plus a further task
depending on a node of the already-reported cycle.  The code disagrees: when
`has_cycle` returns a found cycle it skips `rec_stack.remove(task_id)` along
the whole unwinding path, so the later DFS from task 3 reaches stale
recursion-stack node 1 and `path.index(1)` on the path `[3]` (scoring.py
line 420) raises `ValueError`.  The second conjunct shows the same cycle
without the extra task is reported normally. -/
theorem claim_C3_code_bug :
    detect_circular_dependencies 20 [cycTask1, cycTask2, cycTask3] =
      some (.error .valueError) ∧
    (detect_circular_dependencies 20 [cycTask1, cycTask2]).map
        (fun r =>
          match r with
          | .ok ws => ws.map (·.message)
          | .error _ => []) =
      some ["Circular dependency detected: 1 → 2 → 1"] :=
  ⟨rfl, rfl⟩

/-- Claim C4, counterexample. The spec's concrete scenario claims effort = 100.0
and final score 93.75 for the task `{title: "X", due_date: today,
importance: 9, estimated_hours: 1, dependencies: []}` under `smart_balance`.
The code gives effort 85.0 (`estimated_hours = 1` falls into the 1–2 hour
branch `85 − (1−1)×10`, scoring.py line 318–320) and final score 90.75. -/
theorem claim_C4_counterexample :
    (calculate_task_score todayD scenarioTask [scenarioTask] "smart_balance" []).map
        (fun r => (r.score_breakdown.effort, r.score)) = .ok (85, 90.75) ∧
    (85 : ℚ) ≠ 100 ∧ (90.75 : ℚ) ≠ 93.75 :=
  ⟨by with_unfolding_all exact Eq.refl _, by norm_num, by norm_num⟩

/-- Claim C4, amended. For the scenario task scored alone under
`smart_balance` with no completed ids, the factor scores are urgency 95.0,
importance 100 (90 + bonus 12, capped), effort 85.0 (the 1–2 hour branch),
dependency 70.0, the final weighted score is
`95×.35 + 100×.30 + 85×.20 + 70×.15 = 90.75`, and the priority level is
CRITICAL. -/
theorem claim_C4 :
    (calculate_task_score todayD scenarioTask [scenarioTask] "smart_balance" []).map
        (fun r => (r.score_breakdown, r.score, r.priority_level)) =
      .ok (⟨95, 100, 85, 70⟩, 90.75, "CRITICAL") := by
  with_unfolding_all exact Eq.refl _

/-- Claim C5. For every overdue due date (`days_until < 0`) the urgency score
is exactly 100.0: the code computes `min(100.0, 100.0 + days_overdue*0.5)`
(scoring.py line 231) and the clamp always wins. -/
theorem claim_C5 (due today : PDate) (h : toOrdinal due - toOrdinal today < 0) :
    (calculate_urgency_score (some due) today).1 = 100 := by
  have h1 : (0 : Int) ≤ |toOrdinal due - toOrdinal today| :=
    abs_nonneg (toOrdinal due - toOrdinal today)
  have h0 : (0 : ℚ) ≤ ((|toOrdinal due - toOrdinal today| : Int) : ℚ) * 0.5 := by
    have h2 : (0 : ℚ) ≤ ((|toOrdinal due - toOrdinal today| : Int) : ℚ) := by
      exact_mod_cast h1
    nlinarith
  simp only [calculate_urgency_score, h, if_pos, pyMin]
  rw [if_neg (by linarith)]

/-- Witness for C5 at the concrete overdue date 2025-10-05 against
today 2025-10-12. -/
theorem claim_C5_witness :
    toOrdinal ⟨2025, 10, 5⟩ - toOrdinal ⟨2025, 10, 12⟩ < 0 ∧
    (calculate_urgency_score (some ⟨2025, 10, 5⟩) ⟨2025, 10, 12⟩).1 = 100 :=
  ⟨by decide, claim_C5 ⟨2025, 10, 5⟩ ⟨2025, 10, 12⟩ (by decide)⟩

/-- Claim C6, counterexample. The spec claims strict monotonicity of the
importance score for `8 ≤ i1 < i2 ≤ 10`, but importance 9 and importance 10
both reach the cap: `min(100, 90+12) = min(100, 100+27) = 100`
(scoring.py line 278). -/
theorem claim_C6_counterexample :
    (1 ≤ (9 : Int) ∧ 8 ≤ (9 : Int) ∧ (9 : Int) < 10 ∧ (10 : Int) ≤ 10) ∧
    (calculate_importance_score 9).1 = (calculate_importance_score 10).1 :=
  ⟨by decide, by with_unfolding_all exact Eq.refl _⟩

/-- Claim C6, amended. For all importance ratings `i1 < i2` in `[1, 10]` the
importance score is monotone, and strict above the exponential-bonus
threshold of 8 except for the pair `(9, 10)`, where both scores are capped
at 100. -/
theorem claim_C6 (i1 i2 : Int) (h1 : 1 ≤ i1) (h2 : i1 < i2) (h3 : i2 ≤ 10) :
    (calculate_importance_score i1).1 ≤ (calculate_importance_score i2).1 ∧
    (8 ≤ i1 → ¬(i1 = 9 ∧ i2 = 10) →
      (calculate_importance_score i1).1 < (calculate_importance_score i2).1) := by
  have h4 : i1 ≤ 9 := by omega
  interval_cases i1 <;> interval_cases i2 <;>
    simp [calculate_importance_score, pyMinI] <;> norm_num

/-- Witness for C6 at `i1 = 8`, `i2 = 9`. -/
theorem claim_C6_witness :
    (calculate_importance_score 8).1 ≤ (calculate_importance_score 9).1 ∧
    (8 ≤ (8 : Int) → ¬((8 : Int) = 9 ∧ (9 : Int) = 10) →
      (calculate_importance_score 8).1 < (calculate_importance_score 9).1) :=
  claim_C6 8 9 (by decide) (by decide) (by decide)

/-- Claim C9. Every profile of `STRATEGY_WEIGHTS` has weights summing to 1.0
within tolerance `1e-9`, and the `balanced` and `smart_balance` names
resolve to identical profiles. -/
theorem claim_C9 :
    (∀ p ∈ STRATEGY_WEIGHTS,
        |p.2.urgency + p.2.importance + p.2.effort + p.2.dependency - 1| <
          1 / 1000000000) ∧
    lookupStrategy "balanced" = lookupStrategy "smart_balance" := by
  constructor
  · intro p hp
    fin_cases hp <;> norm_num
  · with_unfolding_all exact Eq.refl _

/-- Witness for C9 at the `smart_balance` entry of the table. -/
theorem claim_C9_witness :
    |smartBalanceProfile.urgency + smartBalanceProfile.importance +
        smartBalanceProfile.effort + smartBalanceProfile.dependency - 1| <
      1 / 1000000000 :=
  claim_C9.1 ("smart_balance", smartBalanceProfile)
    (List.Mem.tail _ (List.Mem.head _))

/-! ### Claim C7: the blocker bonus -/

/-- Whether a value is a Python list. -/
def isListB : PyVal → Bool
  | .list _ => true
  | _ => false

/-- The dependency list of a raw task, for tasks whose `dependencies` value
is a list (the documented input domain). -/
def depsList (t : RawTask) : List PyVal :=
  match dictGet t "dependencies" (.list []) with
  | .list l => l
  | _ => []

/-- Number of tasks in the batch whose dependency list contains `tid` —
the count the code's blocker loop computes, over all tasks including the
scored task itself. -/
def countBlockedL (tid : PyVal) (batch : List RawTask) : Nat :=
  (batch.filter (fun t => pyMemL tid (depsList t))).length

/-- The claim's blocker count, following the claim's words: only the
*other* tasks of the batch are counted, the scored task itself (given by its
own dependency list) is excluded. -/
def countOtherBlockedSpec (tid : PyVal) (selfDeps : List PyVal)
    (batch : List RawTask) : Nat :=
  countBlockedL tid batch - (if pyMemL tid selfDeps then 1 else 0)

/-- The self-dependency component of the dependency score: base 70 with
the blocked penalty or the all-met bonus. -/
def selfDepScore (deps completed : List PyVal) : ℚ :=
  (depSelfPair deps completed).1

/-- Claim C7, counterexample. The claim says the blocker bonus counts only the
*other* tasks of the batch.  For the task with id 1 whose own dependency
list is `[1]`, scored alone in its batch, the claimed count is 0 and the
claimed score `70 − min(50, 20×1) + min(30, 15×0) = 50`; the code's loop
(scoring.py lines 379–382) iterates over *all* tasks, counts the task
itself, and returns 65. -/
theorem claim_C7_counterexample :
    calculate_dependency_score (.int 1) [.int 1] [selfDepTask] [] =
      .ok (65, "Blocked by 1 task(s); Blocks 1 other task(s)") ∧
    countOtherBlockedSpec (.int 1) (depsList selfDepTask) [selfDepTask] = 0 ∧
    (65 : ℚ) ≠ 70 - pyMin 50 (1 * 20) + pyMin 30 ((0 : ℚ) * 15) :=
  ⟨by with_unfolding_all exact Eq.refl _, rfl, by norm_num [pyMin]⟩

/-- The blocker loop returns exactly the list-model count when every task's
`dependencies` value is a list. -/
theorem countBlocked_ok (tid : PyVal) (batch : List RawTask)
    (hl : ∀ t ∈ batch, isListB (dictGet t "dependencies" (.list [])) = true) :
    countBlocked tid batch = .ok (countBlockedL tid batch) := by
  induction batch with
  | nil => rfl
  | cons t rest ih =>
    have ht := hl t (List.mem_cons_self t rest)
    have hrest : ∀ u ∈ rest, isListB (dictGet u "dependencies" (.list [])) = true :=
      fun u hu => hl u (List.mem_cons_of_mem t hu)
    cases hv : dictGet t "dependencies" (.list []) with
    | list l =>
      simp only [countBlocked, hv, pyInVal, countBlockedL, depsList, List.filter_cons,
        ih hrest]
      cases hm : pyMemL tid l <;>
        simp [Bind.bind, Except.bind, hv, countBlockedL, depsList, hm, Nat.add_comm]
    | none => rw [hv] at ht; simp [isListB] at ht
    | bool b => rw [hv] at ht; simp [isListB] at ht
    | int n => rw [hv] at ht; simp [isListB] at ht
    | float q => rw [hv] at ht; simp [isListB] at ht
    | str s => rw [hv] at ht; simp [isListB] at ht
    | pydate d => rw [hv] at ht; simp [isListB] at ht
    | pydatetime d => rw [hv] at ht; simp [isListB] at ht

/-- Claim C7, amended. For every task id that is not `None` and every batch
whose tasks all carry list-valued dependencies, the dependency score is the
self-dependency component plus the blocker bonus `min(30, 15×blocked_count)`
— where `blocked_count` counts **all** tasks of the batch whose dependency
list contains this task's id, including the scored task itself when its own
list contains its id — added regardless of the task's own dependency state,
before the final clamp to `[0, 100]`. -/
theorem claim_C7 (tid : PyVal) (deps : List PyVal) (batch : List RawTask)
    (completed : List PyVal) (hid : isNoneB tid = false)
    (hl : ∀ t ∈ batch, isListB (dictGet t "dependencies" (.list [])) = true) :
    (calculate_dependency_score tid deps batch completed).map (fun p => p.1) =
      .ok (pyMax 0 (pyMin 100 (selfDepScore deps completed +
        pyMin 30 ((countBlockedL tid batch : ℚ) * 15)))) := by
  have hcb := countBlocked_ok tid batch hl
  cases hc : countBlockedL tid batch with
  | zero =>
    rw [hc] at hcb
    simp only [calculate_dependency_score, hid, Bool.false_eq_true, if_false, hcb,
      selfDepScore]
    simp only [Bind.bind, Except.bind, Pure.pure, Except.pure, Except.map]
    norm_num [pyMin]
  | succ n =>
    rw [hc] at hcb
    simp only [calculate_dependency_score, hid, Bool.false_eq_true, if_false, hcb,
      selfDepScore]
    simp only [Bind.bind, Except.bind, Pure.pure, Except.pure, Except.map]
    simp

/-- Witness for C7: the self-dependency batch, where the count is 1 and the
score is `70 − 20 + 15 = 65`. -/
theorem claim_C7_witness :
    isNoneB (PyVal.int 1) = false ∧
    (∀ t ∈ [selfDepTask], isListB (dictGet t "dependencies" (.list [])) = true) ∧
    (calculate_dependency_score (.int 1) [.int 1] [selfDepTask] []).map (fun p => p.1) =
      .ok (pyMax 0 (pyMin 100 (selfDepScore [.int 1] [] +
        pyMin 30 ((countBlockedL (.int 1) [selfDepTask] : ℚ) * 15)))) :=
  ⟨rfl, by decide,
    claim_C7 (.int 1) [.int 1] [selfDepTask] [] rfl (by decide)⟩

/-! ### Claim C10: the reported strategy name -/

/-- A placeholder scored task (used only as a match fallback). -/
def fallbackScored : ScoredTask :=
  ⟨"", Option.none, 0, 0, [], Option.none, 0, "", ⟨0, 0, 0, 0⟩, ⟨"", "", "", ""⟩,
    "", [], Option.none⟩

/-- The result of scoring the plain task under the unknown strategy name
`mystery_mode`. -/
def c10Result : ScoredTask :=
  match calculate_task_score todayD plainTask [plainTask] "mystery_mode" [] with
  | .ok r => r
  | .error _ => fallbackScored

/-- Claim C10. Whenever `calculate_task_score` succeeds, the result's
`strategy_used` is the strategy argument verbatim (scoring.py line 542) —
and when the strategy name is unknown, the numbers were nevertheless
computed with the `smart_balance` fallback weights: scoring the same task
under `"smart_balance"` gives the same score, breakdown and priority level.
So the reported strategy name can differ from the profile that determined
the score. -/
theorem claim_C10 (today : PDate) (task : RawTask) (allT : List RawTask)
    (strategy : String) (completed : List PyVal) (r : ScoredTask)
    (hr : calculate_task_score today task allT strategy completed = .ok r) :
    r.strategy_used = strategy ∧
    (lookupStrategy strategy = Option.none →
      (calculate_task_score today task allT strategy completed).map
          (fun x => (x.score, x.score_breakdown, x.priority_level)) =
        (calculate_task_score today task allT "smart_balance" completed).map
          (fun x => (x.score, x.score_breakdown, x.priority_level))) := by
  have hsb : lookupStrategy "smart_balance" = some smartBalanceProfile := rfl
  cases hv : validate_task_data task with
  | error e =>
    rw [calculate_task_score, hv] at hr
    simp [Bind.bind, Except.bind] at hr
  | ok p =>
    obtain ⟨norm, dw⟩ := p
    cases hd : calculate_dependency_score (norm.id.getD .none) norm.dependencies
        allT completed with
    | error e =>
      rw [calculate_task_score, hv] at hr
      simp only [Bind.bind, Except.bind] at hr
      rw [hd] at hr
      simp at hr
    | ok dp =>
      obtain ⟨ds, de⟩ := dp
      constructor
      · rw [calculate_task_score, hv] at hr
        simp only [Bind.bind, Except.bind] at hr
        rw [hd] at hr
        simp only [Except.ok.injEq] at hr
        subst hr
        rfl
      · intro hns
        rw [calculate_task_score, hv]
        simp only [Bind.bind, Except.bind]
        rw [hd]
        simp only [hns, hsb, Except.map]
        rw [calculate_task_score, hv]
        simp only [Bind.bind, Except.bind]
        rw [hd]
        simp only [hsb]

/-- Witness for C10: the plain task under the unknown strategy
`mystery_mode`. -/
theorem claim_C10_witness :
    calculate_task_score todayD plainTask [plainTask] "mystery_mode" [] =
      .ok c10Result ∧
    c10Result.strategy_used = "mystery_mode" ∧
    (lookupStrategy "mystery_mode" = Option.none →
      (calculate_task_score todayD plainTask [plainTask] "mystery_mode" []).map
          (fun x => (x.score, x.score_breakdown, x.priority_level)) =
        (calculate_task_score todayD plainTask [plainTask] "smart_balance" []).map
          (fun x => (x.score, x.score_breakdown, x.priority_level))) :=
  ⟨by with_unfolding_all exact Eq.refl _,
    (claim_C10 todayD plainTask [plainTask] "mystery_mode" [] c10Result
      (by with_unfolding_all exact Eq.refl _)).1,
    (claim_C10 todayD plainTask [plainTask] "mystery_mode" [] c10Result
      (by with_unfolding_all exact Eq.refl _)).2⟩

/-! ### Claim C8: sorting, stability and rank assignment -/

/-- A scored task with its rank cleared, for comparing the ranked output
against the pre-sort scored list. -/
def eraseRank (t : ScoredTask) : ScoredTask := { t with rank := Option.none }

/-- Transitivity of the descending score comparison. -/
theorem scoreLe_trans : ∀ a b c : ScoredTask,
    (fun a b : ScoredTask => decide (b.score ≤ a.score)) a b →
    (fun a b : ScoredTask => decide (b.score ≤ a.score)) b c →
    (fun a b : ScoredTask => decide (b.score ≤ a.score)) a c := by
  intro a b c h1 h2
  simp only [decide_eq_true_eq] at h1 h2 ⊢
  exact le_trans h2 h1

/-- Totality of the descending score comparison. -/
theorem scoreLe_total : ∀ a b : ScoredTask,
    ((fun a b : ScoredTask => decide (b.score ≤ a.score)) a b ||
      (fun a b : ScoredTask => decide (b.score ≤ a.score)) b a) := by
  intro a b
  simp only [Bool.or_eq_true, decide_eq_true_eq]
  exact le_total b.score a.score

/-- The sorted list is pairwise descending in score. -/
theorem sortByScoreDesc_pairwise (l : List ScoredTask) :
    (sortByScoreDesc l).Pairwise (fun a b => b.score ≤ a.score) := by
  have h := @List.sorted_mergeSort ScoredTask
    (fun a b : ScoredTask => decide (b.score ≤ a.score)) scoreLe_trans scoreLe_total l
  exact h.imp (by intro a b hb; simpa using hb)

/-- Stability of the sort: the tasks of any one score value appear in the
sorted output exactly in their pre-sort order. -/
theorem sortByScoreDesc_filter (l : List ScoredTask) (q : ℚ) :
    (sortByScoreDesc l).filter (fun t => t.score == q) =
      l.filter (fun t => t.score == q) := by
  have hall : ∀ x ∈ l.filter (fun t => t.score == q), x.score = q := by
    intro x hx
    have h1 := (List.mem_filter.mp hx).2
    simpa using h1
  have hpair : (l.filter (fun t => t.score == q)).Pairwise
      (fun a b : ScoredTask => decide (b.score ≤ a.score)) := by
    apply List.pairwise_of_forall_mem_list
    intro a ha b hb
    simp only [decide_eq_true_eq, hall a ha, hall b hb, le_refl]
  have hsub : List.Sublist (l.filter (fun t => t.score == q)) l :=
    List.filter_sublist l
  have hsl : List.Sublist (l.filter (fun t => t.score == q)) (sortByScoreDesc l) :=
    List.sublist_mergeSort scoreLe_trans scoreLe_total hpair hsub
  have hsl2 : List.Sublist (l.filter (fun t => t.score == q))
      ((sortByScoreDesc l).filter (fun t => t.score == q)) := by
    have h1 := hsl.filter (fun t => t.score == q)
    rwa [List.filter_eq_self.mpr (fun a ha => by simp [hall a ha])] at h1
  have hperm : List.Perm ((sortByScoreDesc l).filter (fun t => t.score == q))
      (l.filter (fun t => t.score == q)) :=
    (List.mergeSort_perm l _).filter _
  exact (hsl2.eq_of_length hperm.length_eq.symm).symm

/-- A successful `calculate_task_score` never assigns a rank. -/
theorem calculate_task_score_rank (today : PDate) (task : RawTask)
    (allT : List RawTask) (strategy : String) (completed : List PyVal)
    (s : ScoredTask)
    (h : calculate_task_score today task allT strategy completed = .ok s) :
    s.rank = Option.none := by
  cases hv : validate_task_data task with
  | error e =>
    rw [calculate_task_score, hv] at h
    simp [Bind.bind, Except.bind] at h
  | ok p =>
    obtain ⟨norm, dw⟩ := p
    cases hd : calculate_dependency_score (norm.id.getD .none) norm.dependencies
        allT completed with
    | error e =>
      rw [calculate_task_score, hv] at h
      simp only [Bind.bind, Except.bind] at h
      rw [hd] at h
      simp at h
    | ok dp =>
      obtain ⟨ds, de⟩ := dp
      rw [calculate_task_score, hv] at h
      simp only [Bind.bind, Except.bind] at h
      rw [hd] at h
      simp only [Except.ok.injEq] at h
      subst h
      rfl

/-- Every task of a successful scoring loop has no rank yet. -/
theorem scoreAll_rank (today : PDate) (allT : List RawTask) (strategy : String)
    (completed : List PyVal) :
    ∀ (l : List RawTask) (scored : List ScoredTask),
      scoreAll today allT strategy completed l = .ok scored →
      ∀ s ∈ scored, s.rank = Option.none := by
  intro l
  induction l with
  | nil =>
    intro scored h s hs
    simp only [scoreAll, Except.ok.injEq] at h
    subst h
    simp at hs
  | cons t rest ih =>
    intro scored h s hs
    cases hc : calculate_task_score today t allT strategy completed with
    | error e =>
      simp only [scoreAll, Bind.bind, Except.bind, hc] at h
      exact Except.noConfusion h
    | ok s0 =>
      cases hrest : scoreAll today allT strategy completed rest with
      | error e =>
        simp only [scoreAll, Bind.bind, Except.bind, hc, hrest] at h
        exact Except.noConfusion h
      | ok others =>
        simp only [scoreAll, Bind.bind, Except.bind, hc, hrest, Except.ok.injEq] at h
        subst h
        rcases List.mem_cons.mp hs with h1 | h2
        · subst h1
          exact calculate_task_score_rank today t allT strategy completed s hc
        · exact ih others hrest s h2

/-- An element of the ranked list is the corresponding sorted element with
rank `i + 1`. -/
theorem assignRanks_get (l : List ScoredTask) (i : Nat)
    (h : i < (assignRanks l).length) :
    (assignRanks l).get ⟨i, h⟩ =
      { l.get ⟨i, by simpa [assignRanks] using h⟩ with rank := some (i + 1) } := by
  simp [assignRanks, List.get_eq_getElem, List.getElem_enum]

/-- Clearing an absent rank is the identity. -/
theorem eraseRank_of_rank_none (t : ScoredTask) (h : t.rank = Option.none) :
    eraseRank t = t := by
  cases t
  simp_all [eraseRank]

/-- Clearing the assigned ranks recovers the sorted list. -/
theorem assignRanks_map_eraseRank (l : List ScoredTask)
    (h : ∀ x ∈ l, x.rank = Option.none) :
    (assignRanks l).map eraseRank = l := by
  unfold assignRanks
  rw [List.map_map]
  have hcong : ∀ p ∈ l.enum,
      (eraseRank ∘ fun p : Nat × ScoredTask => { p.2 with rank := some (p.1 + 1) }) p =
        Prod.snd p := by
    intro p hp
    obtain ⟨i, x⟩ := p
    have h3 := (List.mem_enumFrom hp).2.2
    have hmem : x ∈ l := by
      rw [h3]
      exact List.getElem_mem _
    exact eraseRank_of_rank_none x (h x hmem)
  rw [List.map_congr_left hcong, List.enum_map_snd]

/-- The ranked sorted list is pairwise descending in score, stated via
indices. -/
theorem rankedSorted (l : List ScoredTask) (i j : Nat)
    (hi : i < (assignRanks (sortByScoreDesc l)).length)
    (hj : j < (assignRanks (sortByScoreDesc l)).length) (hij : i < j) :
    ((assignRanks (sortByScoreDesc l)).get ⟨j, hj⟩).score ≤
      ((assignRanks (sortByScoreDesc l)).get ⟨i, hi⟩).score := by
  have hi2 : i < (sortByScoreDesc l).length := by simpa [assignRanks] using hi
  have hj2 : j < (sortByScoreDesc l).length := by simpa [assignRanks] using hj
  rw [assignRanks_get _ i hi, assignRanks_get _ j hj]
  have hp := sortByScoreDesc_pairwise l
  rw [List.pairwise_iff_get] at hp
  exact hp ⟨i, hi2⟩ ⟨j, hj2⟩ hij

/-- Filtering the rank-cleared ranked output by any score value recovers
the same-score tasks in pre-sort order. -/
theorem rankedFilter (l : List ScoredTask) (h : ∀ x ∈ l, x.rank = Option.none)
    (q : ℚ) :
    ((assignRanks (sortByScoreDesc l)).map eraseRank).filter (fun t => t.score == q) =
      l.filter (fun t => t.score == q) := by
  have hall : ∀ x ∈ sortByScoreDesc l, x.rank = Option.none := by
    intro x hx
    exact h x (List.mem_mergeSort.mp hx)
  rw [assignRanks_map_eraseRank _ hall, sortByScoreDesc_filter]

/-- The rank field of the `i`-th ranked task is `i + 1`. -/
theorem rankedRank (l : List ScoredTask) (i : Nat)
    (hi : i < (assignRanks l).length) :
    ((assignRanks l).get ⟨i, hi⟩).rank = some (i + 1) := by
  rw [assignRanks_get l i hi]

/-- Claim C8. For every non-empty batch on which `analyze_tasks` succeeds, the
returned `tasks` sequence is sorted descending by score; tasks of any equal
score appear in their original input order (the order of the scoring loop's
output, witnessed through `eraseRank` since ranks are assigned only after
sorting); and each task's rank equals its 1-based position. -/
theorem claim_C8 (fuel : Nat) (today : PDate) (tasks : List RawTask)
    (strategy : String) (completed : List PyVal) (r : BatchResult)
    (scored : List ScoredTask)
    (hne : tasks ≠ [])
    (hr : analyze_tasks fuel today tasks strategy completed = some (.ok r))
    (hs : scoreAll today tasks strategy completed tasks = .ok scored) :
    (∀ (i j : Nat) (hi : i < r.tasks.length) (hj : j < r.tasks.length), i < j →
        (r.tasks.get ⟨j, hj⟩).score ≤ (r.tasks.get ⟨i, hi⟩).score) ∧
    (∀ q : ℚ, (r.tasks.map eraseRank).filter (fun t => t.score == q) =
        scored.filter (fun t => t.score == q)) ∧
    (∀ (i : Nat) (hi : i < r.tasks.length),
        (r.tasks.get ⟨i, hi⟩).rank = some (i + 1)) := by
  have hne2 : tasks.isEmpty = false := by
    cases tasks with
    | nil => exact absurd rfl hne
    | cons a l => rfl
  rw [analyze_tasks] at hr
  rw [if_neg (by simp [hne2])] at hr
  cases hd : detect_circular_dependencies fuel tasks with
  | none => rw [hd] at hr; simp at hr
  | some res =>
    cases res with
    | error e => rw [hd] at hr; simp at hr
    | ok dw =>
      rw [hd, hs] at hr
      cases hls : lookupStrategy strategy with
      | none => rw [hls] at hr; simp at hr
      | some w =>
        rw [hls] at hr
        simp only [Option.some.injEq, Except.ok.injEq] at hr
        subst hr
        have hranknone : ∀ x ∈ scored, x.rank = Option.none :=
          scoreAll_rank today tasks strategy completed tasks scored hs
        exact ⟨fun i j hi hj hij => rankedSorted scored i j hi hj hij,
          fun q => rankedFilter scored hranknone q,
          fun i hi => rankedRank (sortByScoreDesc scored) i hi⟩

/-- Demo task A: importance 9, one hour. -/
def demoTaskA : RawTask :=
  [("title", .str "A"), ("importance", .int 9), ("estimated_hours", .int 1)]

/-- Demo task B: same attributes as A, so the two scores tie. -/
def demoTaskB : RawTask :=
  [("title", .str "B"), ("importance", .int 9), ("estimated_hours", .int 1)]

/-- Demo task C: a clearly lower-scoring task. -/
def demoTaskC : RawTask :=
  [("title", .str "C"), ("importance", .int 2), ("estimated_hours", .int 9)]

/-- The demo batch: the low scorer first, then the two tied tasks. -/
def demoBatch : List RawTask := [demoTaskC, demoTaskA, demoTaskB]

/-- The scored (pre-sort) list of the demo batch. -/
def demoScored : List ScoredTask :=
  match scoreAll todayD demoBatch "balanced" [] demoBatch with
  | .ok l => l
  | .error _ => []

/-- The batch result of the demo batch. -/
def demoResult : BatchResult :=
  match analyze_tasks 20 todayD demoBatch "balanced" [] with
  | some (.ok r) => r
  | _ => ⟨[], .empty 0 "", []⟩

/-- Witness for C8 on the demo batch (two tied tasks plus a lower one). -/
theorem claim_C8_witness :
    demoBatch ≠ [] ∧
    analyze_tasks 20 todayD demoBatch "balanced" [] = some (.ok demoResult) ∧
    scoreAll todayD demoBatch "balanced" [] demoBatch = .ok demoScored ∧
    ((∀ (i j : Nat) (hi : i < demoResult.tasks.length)
        (hj : j < demoResult.tasks.length), i < j →
        (demoResult.tasks.get ⟨j, hj⟩).score ≤ (demoResult.tasks.get ⟨i, hi⟩).score) ∧
      (∀ q : ℚ, (demoResult.tasks.map eraseRank).filter (fun t => t.score == q) =
        demoScored.filter (fun t => t.score == q)) ∧
      (∀ (i : Nat) (hi : i < demoResult.tasks.length),
        (demoResult.tasks.get ⟨i, hi⟩).rank = some (i + 1))) :=
  ⟨by simp [demoBatch], by with_unfolding_all exact Eq.refl _,
    by with_unfolding_all exact Eq.refl _,
    claim_C8 20 todayD demoBatch "balanced" [] demoResult demoScored
      (by simp [demoBatch]) (by with_unfolding_all exact Eq.refl _)
      (by with_unfolding_all exact Eq.refl _)⟩
